import Mathlib

set_option linter.unusedVariables false

/-! Shallow embedding of the cluster connection layer (cluster.go) of the
gocb client library: the connection data model, the bucket-connection
registry, provider resolution with its fallback scan, close semantics,
and connection-string timeout-option parsing. -/

/-- Go `time.Duration`: a signed 64-bit count of nanoseconds, embedded as
`Int` with explicit wrapping where the source can overflow. -/
abbrev Duration := Int

/-- Go `time.Millisecond` expressed in nanoseconds. -/
def timeMillisecond : Duration := 1000000

/-- Wrap an integer into the signed 64-bit range, as Go arithmetic does. -/
def int64Wrap (x : Int) : Int := (x + 2 ^ 63) % 2 ^ 64 - 2 ^ 63

/-- A Go `error` value, identified by its message: the code under study
only produces errors via `errors.New` and `fmt.Errorf` with fixed text,
and never compares errors except against `nil`. -/
structure GoError where
  msg : String
  deriving DecidableEq, Repr

/-- `errors.New("not connected to cluster")`, produced by `randomClient`. -/
def notConnectedErr : GoError := ⟨"not connected to cluster"⟩

/-- The error produced by `clusterOrRandomClient` when the cluster-level
client does not support GCCCP (string concatenated as in the source). -/
def gcccpUnsupportedErr : GoError :=
  ⟨"the cluster does not support cluster-level queries " ++
    "(only Couchbase Server 6.5 and later) and no bucket is open. If an older Couchbase Server version " ++
    "is used, at least one bucket needs to be opened"⟩

/-- The observable state of one connection handle — the `client` interface
consumed by cluster.go: `getBootstrapError()`, `connected() (bool, error)`,
`supportsGCCCP()`, `close()`.  `id` identifies the underlying transport
session, so reference equality of handles is equality of `id`. -/
structure client where
  id : Nat
  bootstrapErr : Option GoError
  connectedOk : Bool
  connectedErr : Option GoError
  supportsGCCCP : Bool
  closeErr : Option GoError
  deriving DecidableEq, Repr

/-- A handle that the fallback scan of `randomClient` may select: no
bootstrap error, and `connected()` reports `(true, nil)`. -/
def isConnectedOK (cl : client) : Bool :=
  cl.bootstrapErr.isNone && cl.connectedErr.isNone && cl.connectedOk

/-- The error, if any, that the fallback scan records when it skips a
handle: its bootstrap error, or else the error from `connected()`. -/
def recordedErr (cl : client) : Option GoError :=
  match cl.bootstrapErr with
  | some e => some e
  | none => cl.connectedErr

/-- The loop body of `Cluster.randomClient` (cluster.go 365-382): walk the
handles in iteration order, remembering the first error seen, and stop at
the first handle whose `connected()` is `(true, nil)`. -/
def scanClients : List client → Option GoError → Option client × Option GoError
  | [], firstError => (none, firstError)
  | cl :: rest, firstError =>
    match cl.bootstrapErr with
    | some e => scanClients rest (if firstError.isNone then some e else firstError)
    | none =>
      match cl.connectedErr with
      | some e => scanClients rest (if firstError.isNone then some e else firstError)
      | none =>
        if cl.connectedOk then (some cl, firstError)
        else scanClients rest firstError

/-- `Cluster.randomClient` (cluster.go 357-393).  The Go map iteration
order is arbitrary; the embedding fixes it as the list order. -/
def randomClient (conns : List client) : Except GoError client :=
  if conns.length = 0 then .error notConnectedErr
  else
    match scanClients conns none with
    | (some cl, _) => .ok cl
    | (none, some e) => .error e
    | (none, none) => .error notConnectedErr

/-- The resolved configuration block (`stateBlock`) referenced by
cluster.go; opaque injected collaborators (transcoder, retry strategy,
circuit breaker, security and internal config) are represented by `Nat`
tokens, the tracer by an optional token so that `Close` can nil it. -/
structure stateBlock where
  ConnectTimeout : Duration
  QueryTimeout : Duration
  AnalyticsTimeout : Duration
  SearchTimeout : Duration
  ViewTimeout : Duration
  KvTimeout : Duration
  KvDurableTimeout : Duration
  DuraPollTimeout : Duration
  ManagementTimeout : Duration
  Transcoder : Nat
  UseMutationTokens : Bool
  RetryStrategyWrapper : Nat
  OrphanLoggerEnabled : Bool
  OrphanLoggerInterval : Duration
  OrphanLoggerSampleSize : Nat
  UseServerDurations : Bool
  Tracer : Option Nat
  CircuitBreakerConfig : Nat
  SecurityConfig : Nat
  InternalConfig : Nat
  deriving DecidableEq, Repr

/-- An `Authenticator`: either the `PasswordAuthenticator` that
`clusterFromOptions` builds from username and password, or some other
opaque authenticator supplied by the caller. -/
inductive Authenticator where
  | password (username pw : String)
  | other (tok : Nat)
  deriving DecidableEq, Repr

/-- `TimeoutsConfig` of `ClusterOptions`; a zero value means "not set". -/
structure TimeoutsConfig where
  ConnectTimeout : Duration := 0
  KVTimeout : Duration := 0
  KVDurableTimeout : Duration := 0
  ViewTimeout : Duration := 0
  QueryTimeout : Duration := 0
  AnalyticsTimeout : Duration := 0
  SearchTimeout : Duration := 0
  ManagementTimeout : Duration := 0
  deriving DecidableEq, Repr

/-- `IoConfig` of `ClusterOptions`. -/
structure IoConfig where
  DisableMutationTokens : Bool := false
  DisableServerDurations : Bool := false
  deriving DecidableEq, Repr

/-- `OrphanReporterConfig` of `ClusterOptions`. -/
structure OrphanReporterConfig where
  Disabled : Bool := false
  ReportInterval : Duration := 0
  SampleSize : Nat := 0
  deriving DecidableEq, Repr

/-- `ClusterOptions` (cluster.go 77-114), with opaque collaborators as
optional `Nat` tokens (`none` embeds Go's `nil`). -/
structure ClusterOptions where
  Authenticator : Option Authenticator := none
  Username : String := ""
  Password : String := ""
  TimeoutsConfig : TimeoutsConfig := {}
  Transcoder : Option Nat := none
  RetryStrategy : Option Nat := none
  Tracer : Option Nat := none
  OrphanReporterConfig : OrphanReporterConfig := {}
  CircuitBreakerConfig : Nat := 0
  IoConfig : IoConfig := {}
  SecurityConfig : Nat := 0
  InternalConfig : Nat := 0
  deriving DecidableEq, Repr

/-- The parsed connection string (`gocbconnstr.ConnSpec`), restricted to
the fields cluster.go reads: the scheme and the option multimap.  The Go
map of option values is embedded as an association list; a missing key is
Go's nil slice, embedded as the empty list. -/
structure ConnSpec where
  Scheme : String := ""
  Options : List (String × List String) := []
  deriving DecidableEq, Repr

/-- Modelled from the spec: the `clientStateBlock` fingerprint key and its
`Hash()` are not under src (stateblock.go is missing).  Per spec section 3,
a ConnectionFingerprint is "derived deterministically from the subset of
ConfigBlock fields plus target bucket name that affects wire-level
behavior (timeouts, auth, security, mutation-token/durability toggles)";
the record itself serves as the deterministic fingerprint value. -/
structure clientStateBlock where
  BucketName : String
  ConnectTimeout : Duration
  KvTimeout : Duration
  KvDurableTimeout : Duration
  ViewTimeout : Duration
  QueryTimeout : Duration
  AnalyticsTimeout : Duration
  SearchTimeout : Duration
  ManagementTimeout : Duration
  UseMutationTokens : Bool
  UseServerDurations : Bool
  SecurityConfig : Nat
  deriving DecidableEq, Repr

/-- Modelled from the spec: `newBucket(&c.sb, bucketName)` (bucket.go is
missing from src) derives the bucket's fingerprint key from the cluster's
resolved config and the bucket name. -/
def mkCSB (sb : stateBlock) (name : String) : clientStateBlock :=
  { BucketName := name
    ConnectTimeout := sb.ConnectTimeout
    KvTimeout := sb.KvTimeout
    KvDurableTimeout := sb.KvDurableTimeout
    ViewTimeout := sb.ViewTimeout
    QueryTimeout := sb.QueryTimeout
    AnalyticsTimeout := sb.AnalyticsTimeout
    SearchTimeout := sb.SearchTimeout
    ManagementTimeout := sb.ManagementTimeout
    UseMutationTokens := sb.UseMutationTokens
    UseServerDurations := sb.UseServerDurations
    SecurityConfig := sb.SecurityConfig }

/-- The `Cluster` struct (cluster.go 16-32), with two pieces of
instrumentation that make identity visible to the theorems: `nextId`
numbers transport sessions and `factoryCount` counts invocations of the
build-and-connect factory (`newClient` + `buildConfig` + `connect`). -/
structure Cluster where
  cSpec : ConnSpec
  auth : Authenticator
  connections : List (clientStateBlock × client)
  clusterClient : Option client
  sb : stateBlock
  supportsGCCCP : Bool
  nextId : Nat
  factoryCount : Nat
  deriving DecidableEq, Repr

/-- Token for `NewJSONTranscoder()`. -/
def jsonTranscoderTok : Nat := 0

/-- Token for `NewBestEffortRetryStrategy(nil)` (wrapped). -/
def bestEffortRetryTok : Nat := 0

/-- Token for `newThresholdLoggingTracer(nil)`. -/
def thresholdTracerTok : Nat := 0

/-- `clusterFromOptions` (cluster.go 121-213): applies the documented
defaults to every timeout the caller left at zero or below, fills in the
default authenticator, transcoder, retry strategy and tracer, and builds
the cluster with an empty connection registry. -/
def clusterFromOptions (opts : ClusterOptions) : Cluster :=
  let auth := opts.Authenticator.getD (.password opts.Username opts.Password)
  let connectTimeout :=
    if opts.TimeoutsConfig.ConnectTimeout > 0 then opts.TimeoutsConfig.ConnectTimeout
    else 10000 * timeMillisecond
  let kvTimeout :=
    if opts.TimeoutsConfig.KVTimeout > 0 then opts.TimeoutsConfig.KVTimeout
    else 2500 * timeMillisecond
  let kvDurableTimeout :=
    if opts.TimeoutsConfig.KVDurableTimeout > 0 then opts.TimeoutsConfig.KVDurableTimeout
    else 10000 * timeMillisecond
  let viewTimeout :=
    if opts.TimeoutsConfig.ViewTimeout > 0 then opts.TimeoutsConfig.ViewTimeout
    else 75000 * timeMillisecond
  let queryTimeout :=
    if opts.TimeoutsConfig.QueryTimeout > 0 then opts.TimeoutsConfig.QueryTimeout
    else 75000 * timeMillisecond
  let analyticsTimeout :=
    if opts.TimeoutsConfig.AnalyticsTimeout > 0 then opts.TimeoutsConfig.AnalyticsTimeout
    else 75000 * timeMillisecond
  let searchTimeout :=
    if opts.TimeoutsConfig.SearchTimeout > 0 then opts.TimeoutsConfig.SearchTimeout
    else 75000 * timeMillisecond
  let managementTimeout :=
    if opts.TimeoutsConfig.ManagementTimeout > 0 then opts.TimeoutsConfig.ManagementTimeout
    else 75000 * timeMillisecond
  { cSpec := {}
    auth := auth
    connections := []
    clusterClient := none
    supportsGCCCP := false
    nextId := 0
    factoryCount := 0
    sb :=
      { ConnectTimeout := connectTimeout
        QueryTimeout := queryTimeout
        AnalyticsTimeout := analyticsTimeout
        SearchTimeout := searchTimeout
        ViewTimeout := viewTimeout
        KvTimeout := kvTimeout
        KvDurableTimeout := kvDurableTimeout
        DuraPollTimeout := 100 * timeMillisecond
        ManagementTimeout := managementTimeout
        Transcoder := opts.Transcoder.getD jsonTranscoderTok
        UseMutationTokens := !opts.IoConfig.DisableMutationTokens
        RetryStrategyWrapper := opts.RetryStrategy.getD bestEffortRetryTok
        OrphanLoggerEnabled := !opts.OrphanReporterConfig.Disabled
        OrphanLoggerInterval := opts.OrphanReporterConfig.ReportInterval
        OrphanLoggerSampleSize := opts.OrphanReporterConfig.SampleSize
        UseServerDurations := !opts.IoConfig.DisableServerDurations
        Tracer := some (opts.Tracer.getD thresholdTracerTok)
        CircuitBreakerConfig := opts.CircuitBreakerConfig
        SecurityConfig := opts.SecurityConfig
        InternalConfig := opts.InternalConfig } }

/-- The numeric value of a decimal digit character, `none` otherwise. -/
def digitVal (ch : Char) : Option Nat :=
  if '0' ≤ ch ∧ ch ≤ '9' then some (ch.toNat - '0'.toNat) else none

/-- Accumulate a non-empty run of decimal digits left to right. -/
def parseDigits : List Char → Nat → Option Nat
  | [], acc => some acc
  | ch :: rest, acc =>
    match digitVal ch with
    | some d => parseDigits rest (acc * 10 + d)
    | none => none

/-- Go `strconv.ParseInt(s, 10, 64)`: an optional sign followed by a
non-empty run of decimal digits, rejected when the value leaves the
signed 64-bit range; `none` embeds a non-nil parse error. -/
def parseInt64 (s : String) : Option Int :=
  let cs := s.toList
  let signed : Bool × List Char :=
    match cs with
    | '+' :: rest => (false, rest)
    | '-' :: rest => (true, rest)
    | _ => (false, cs)
  match signed.2 with
  | [] => none
  | _ =>
    match parseDigits signed.2 0 with
    | none => none
    | some n =>
      let v : Int := if signed.1 then -(n : Int) else (n : Int)
      if v < -(2 ^ 63) ∨ v > 2 ^ 63 - 1 then none else some v

/-- Go map indexing `spec.Options[name]`: the values for a key, the nil
slice (empty list) when the key is absent. -/
def lookupOpt : List (String × List String) → String → List String
  | [], _ => []
  | (k, vs) :: rest, key => if k = key then vs else lookupOpt rest key

/-- The `fetchOption` closure of `parseExtraConnStrOptions` (cluster.go
255-261): the last value for the key, or nothing when the key has no
values. -/
def fetchOption (spec : ConnSpec) (name : String) : Option String :=
  let optValue := lookupOpt spec.Options name
  if optValue.length = 0 then none else optValue.getLast?

/-- The `query_timeout` block of `parseExtraConnStrOptions` (cluster.go
263-269). -/
def setQueryTimeoutOpt (spec : ConnSpec) (sb : stateBlock) : Except GoError stateBlock :=
  match fetchOption spec "query_timeout" with
  | none => .ok sb
  | some valStr =>
    match parseInt64 valStr with
    | none => .error ⟨"query_timeout option must be a number"⟩
    | some v => .ok { sb with QueryTimeout := int64Wrap (v * timeMillisecond) }

/-- The `analytics_timeout` block of `parseExtraConnStrOptions`
(cluster.go 271-277). -/
def setAnalyticsTimeoutOpt (spec : ConnSpec) (sb : stateBlock) : Except GoError stateBlock :=
  match fetchOption spec "analytics_timeout" with
  | none => .ok sb
  | some valStr =>
    match parseInt64 valStr with
    | none => .error ⟨"analytics_timeout option must be a number"⟩
    | some v => .ok { sb with AnalyticsTimeout := int64Wrap (v * timeMillisecond) }

/-- The `search_timeout` block of `parseExtraConnStrOptions` (cluster.go
279-285). -/
def setSearchTimeoutOpt (spec : ConnSpec) (sb : stateBlock) : Except GoError stateBlock :=
  match fetchOption spec "search_timeout" with
  | none => .ok sb
  | some valStr =>
    match parseInt64 valStr with
    | none => .error ⟨"search_timeout option must be a number"⟩
    | some v => .ok { sb with SearchTimeout := int64Wrap (v * timeMillisecond) }

/-- The `view_timeout` block of `parseExtraConnStrOptions` (cluster.go
287-293). -/
def setViewTimeoutOpt (spec : ConnSpec) (sb : stateBlock) : Except GoError stateBlock :=
  match fetchOption spec "view_timeout" with
  | none => .ok sb
  | some valStr =>
    match parseInt64 valStr with
    | none => .error ⟨"view_timeout option must be a number"⟩
    | some v => .ok { sb with ViewTimeout := int64Wrap (v * timeMillisecond) }

/-- The tail of `parseExtraConnStrOptions` from the `search_timeout`
block on (cluster.go 279-295). -/
def parseExtraFromSearch (spec : ConnSpec) (sb : stateBlock) : Except GoError stateBlock :=
  match setSearchTimeoutOpt spec sb with
  | .error e => .error e
  | .ok sb2 => setViewTimeoutOpt spec sb2

/-- The tail of `parseExtraConnStrOptions` from the `analytics_timeout`
block on (cluster.go 271-295). -/
def parseExtraFromAnalytics (spec : ConnSpec) (sb : stateBlock) : Except GoError stateBlock :=
  match setAnalyticsTimeoutOpt spec sb with
  | .error e => .error e
  | .ok sb1 => parseExtraFromSearch spec sb1

/-- `Cluster.parseExtraConnStrOptions` (cluster.go 254-296), applied to
the cluster's config block: the four recognized keys are processed in
source order with the Go function's early `return err` on the first
malformed value. -/
def parseExtraConnStrOptions (sb : stateBlock) (spec : ConnSpec) : Except GoError stateBlock :=
  match setQueryTimeoutOpt spec sb with
  | .error e => .error e
  | .ok sb0 => parseExtraFromAnalytics spec sb0

/-- The handle the factory of `Cluster.Bucket` produces (cluster.go
325-334): `newClient` followed by `buildConfig` and, only when that
succeeded, `connect`; the first failure is recorded as the bootstrap
error.  `connectedOk` mirrors the transport's resulting connected state
(modelled from the spec: a handle "becomes either usable (bootstrapError
none and underlying transport reports connected) or failed"). -/
def mkHandle (n : Nat) (buildErr connectErr : Option GoError) : client :=
  { id := n
    bootstrapErr :=
      match buildErr with
      | some e => some e
      | none => connectErr
    connectedOk := buildErr.isNone && connectErr.isNone
    connectedErr := none
    supportsGCCCP := false
    closeErr := none }

/-- Association-list lookup for the connection registry
(`c.connections[hash]`). -/
def lookupConn : List (clientStateBlock × client) → clientStateBlock → Option client
  | [], _ => none
  | (k, v) :: rest, key => if k = key then some v else lookupConn rest key

/-- Association-list store for the connection registry
(`c.connections[hash] = cli`): overwrite the key's entry or append. -/
def insertConn : List (clientStateBlock × client) → clientStateBlock → client →
    List (clientStateBlock × client)
  | [], key, v => [(key, v)]
  | (k, w) :: rest, key, v =>
    if k = key then (key, v) :: rest else (k, w) :: insertConn rest key v

/-- The lazy retire step of `Cluster.Bucket` (cluster.go 302-313): shut
down and clear the cluster-level client when it does not support GCCCP.
`Cluster.BucketOp` below is `Cluster.Bucket` (cluster.go 299-342) as a
sequential state transformer.  The transport outcomes of the factory (`buildConfig` and
`connect`, whose code is the external session provider) are passed in as
`buildErr`/`connectErr`.  Steps: retire the cluster-level client when it
does not support GCCCP; look the fingerprint up in the registry and share
the cached handle on a hit; otherwise run the factory, record any
bootstrap error on the handle, and cache the handle win or lose. -/
def retireClusterClient (c : Cluster) : Cluster :=
  match c.clusterClient with
  | some cc => if !cc.supportsGCCCP then { c with clusterClient := none } else c
  | none => c

/-- The body of `Cluster.Bucket` after the retire step (see
`retireClusterClient` above for cluster.go 302-313). -/
def Cluster.BucketOp (c : Cluster) (name : String) (buildErr connectErr : Option GoError) :
    Cluster × client :=
  let c := retireClusterClient c
  let key := mkCSB c.sb name
  match lookupConn c.connections key with
  | some cli => (c, cli)
  | none =>
    let cli := mkHandle c.nextId buildErr connectErr
    ({ c with
        connections := insertConn c.connections key cli
        nextId := c.nextId + 1
        factoryCount := c.factoryCount + 1 }, cli)

/-- `Cluster.clusterOrRandomClient` (cluster.go 475-496): prefer the
cluster-level client; when it exists but does not support GCCCP fail with
`gcccpUnsupportedErr`; only when the slot is empty fall back to the
registry scan. -/
def clusterOrRandomClient (c : Cluster) : Except GoError client :=
  match c.clusterClient with
  | none => randomClient (c.connections.map Prod.snd)
  | some cli =>
    if !cli.supportsGCCCP then .error gcccpUnsupportedErr
    else .ok cli

/-- The request classes resolved through `clusterOrRandomClient`
(cluster.go 498-566): query, analytics, search, diagnostics and generic
HTTP. -/
inductive Capability where
  | query
  | analytics
  | search
  | diagnostics
  | http
  deriving DecidableEq, Repr

/-- The shared shape of `getQueryProvider`, `getAnalyticsProvider`,
`getSearchProvider`, `getDiagnosticsProvider` and `getHTTPProvider`
(cluster.go 498-566): resolve a client, then ask it for the capability's
provider.  The per-client provider accessors live in the external client
implementation and are passed in as `provOf`. -/
def getCapabilityProvider (c : Cluster) (cap : Capability)
    (provOf : client → Capability → Except GoError Nat) : Except GoError Nat :=
  match clusterOrRandomClient c with
  | .error e => .error e
  | .ok cli => provOf cli cap

/-- The outcome of `Cluster.Close`, with the teardown made observable:
the post state, the returned error, the ids of the handles whose `close`
was attempted in order, and how many times `tracerDecRef` ran. -/
structure CloseResult where
  state : Cluster
  overallErr : Option GoError
  closedIds : List Nat
  tracerDecs : Nat
  deriving DecidableEq, Repr

/-- The registry loop of `Cluster.Close` (cluster.go 449-457): close every
entry, let each failure overwrite `overallErr`, delete every entry. -/
def closeConnsLoop : List (clientStateBlock × client) → Option GoError → List Nat →
    Option GoError × List Nat
  | [], acc, ids => (acc, ids)
  | (_, cl) :: rest, acc, ids =>
    closeConnsLoop rest
      (match cl.closeErr with
       | some e => some e
       | none => acc)
      (ids ++ [cl.id])

/-- `Cluster.Close` (cluster.go 445-473): close and delete every registry
entry, close the cluster-level client if present (the slot itself is not
cleared), then decrement and nil the tracer. -/
def closeCluster (c : Cluster) : CloseResult :=
  let r1 := closeConnsLoop c.connections none []
  let r2 :=
    match c.clusterClient with
    | some cc =>
      ((match cc.closeErr with
        | some e => some e
        | none => r1.1), r1.2 ++ [cc.id])
    | none => r1
  match c.sb.Tracer with
  | some _ =>
    { state := { c with connections := [], sb := { c.sb with Tracer := none } }
      overallErr := r2.1
      closedIds := r2.2
      tracerDecs := 1 }
  | none =>
    { state := { c with connections := [] }
      overallErr := r2.1
      closedIds := r2.2
      tracerDecs := 0 }

/-- `Connect` (cluster.go 217-252).  The external connection-string
parser's outcome is passed in as `parseRes`, and the cluster-level
client's transport outcomes (`buildConfig`, `connect`,
`supportsGCCCP()`) as `buildErr`/`connectErr`/`gcccp`. -/
def ConnectModel (parseRes : Except GoError ConnSpec) (opts : ClusterOptions)
    (buildErr connectErr : Option GoError) (gcccp : Bool) : Except GoError Cluster :=
  match parseRes with
  | .error e => .error e
  | .ok connSpec =>
    if connSpec.Scheme = "http" then
      .error ⟨"http scheme is not supported, use couchbase or couchbases instead"⟩
    else
      match parseExtraConnStrOptions (clusterFromOptions opts).sb connSpec with
      | .error e => .error e
      | .ok sb =>
        match buildErr with
        | some e => .error e
        | none =>
          match connectErr with
          | some e => .error e
          | none =>
            let cluster := clusterFromOptions opts
            let cli := { mkHandle cluster.nextId none none with supportsGCCCP := gcccp }
            .ok { cluster with
                    cSpec := connSpec
                    sb := sb
                    clusterClient := some cli
                    nextId := cluster.nextId + 1
                    supportsGCCCP := gcccp }

/-- The gocb `ClusterState` enumeration (its values live outside src);
modelled from the spec with `online` as the default desired state. -/
abbrev ClusterStateV := Nat

/-- `ClusterStateOnline`, the default desired state of `WaitUntilReady`;
the zero value of `ClusterStateV` embeds the unset option. -/
def ClusterStateOnline : ClusterStateV := 1

/-- `WaitUntilReadyOptions` (cluster.go 404-406). -/
structure WaitUntilReadyOptions where
  DesiredState : ClusterStateV := 0
  deriving DecidableEq, Repr

/-- Modelled from the spec: the transport's wait-until-ready provider (the
client's `getWaitUntilReadyProvider` and the gocbcore provider are not
under src).  Per spec section 4.4 it blocks "until desiredState is reached
or timeout elapses, surfacing a timeout condition otherwise"; `reachTimes`
records, per state, after how long the transport reaches it. -/
structure wurProvider where
  reachTimes : List (ClusterStateV × Duration)
  deriving DecidableEq, Repr

/-- Lookup of a desired state's reach time. -/
def reachTimeFor : List (ClusterStateV × Duration) → ClusterStateV → Option Duration
  | [], _ => none
  | (st, t) :: rest, key => if st = key then some t else reachTimeFor rest key

/-- The timeout error surfaced by the wait-until-ready provider. -/
def timeoutErr : GoError := ⟨"unambiguous timeout"⟩

/-- Modelled from the spec: the provider call
`provider.WaitUntilReady(deadline, opts)`: succeeds when the desired
state is reached within the timeout, and surfaces a timeout error when it
is not reached by the deadline. -/
def providerWaitUntilReady (p : wurProvider) (timeout : Duration)
    (desired : ClusterStateV) : Option GoError :=
  match reachTimeFor p.reachTimes desired with
  | some t => if t ≤ timeout then none else some timeoutErr
  | none => some timeoutErr

/-- The desired state `WaitUntilReady` passes to the provider: the
caller's, with the zero value defaulted to online (cluster.go 426-429,
nil options included 412-414). -/
def effectiveDesiredState (opts : Option WaitUntilReadyOptions) : ClusterStateV :=
  let o := opts.getD {}
  if o.DesiredState = 0 then ClusterStateOnline else o.DesiredState

/-- `Cluster.WaitUntilReady` (cluster.go 411-442): fail with the
`cluster is not connected` error when the cluster-level client is absent;
otherwise obtain the wait-until-ready provider (outcome passed in as
`providerRes`) and delegate to it with the effective desired state. -/
def WaitUntilReady (c : Cluster) (timeout : Duration)
    (opts : Option WaitUntilReadyOptions)
    (providerRes : Except GoError wurProvider) : Option GoError :=
  match c.clusterClient with
  | none => some ⟨"cluster is not connected"⟩
  | some _ =>
    match providerRes with
    | .error e => some e
    | .ok p => providerWaitUntilReady p timeout (effectiveDesiredState opts)

/-- The registry state shared by two threads racing through
`Cluster.Bucket` for the same fingerprint. -/
structure RaceState where
  connections : List (clientStateBlock × client)
  nextId : Nat
  factoryCount : Nat
  deriving DecidableEq, Repr

/-- A thread's position inside `Cluster.Bucket` (cluster.go 315-341):
about to run the locked cache lookup; past a cache miss and about to run
the factory (the source holds no lock between `getClient` and the
insert); about to insert its freshly built handle under the lock; or
done holding a handle. -/
inductive ThreadPhase where
  | start
  | creating
  | inserting (cli : client)
  | done (cli : client)
  deriving DecidableEq, Repr

/-- One atomic step of a thread running `Cluster.Bucket` for fingerprint
`key`: each step is exactly the code executed under one hold of
`connectionsLock`, with the factory in between executed lock-free as in
the source. -/
def threadStep (key : clientStateBlock) (buildErr connectErr : Option GoError)
    (s : RaceState) : ThreadPhase → RaceState × ThreadPhase
  | .start =>
    match lookupConn s.connections key with
    | some cli => (s, .done cli)
    | none => (s, .creating)
  | .creating =>
    let cli := mkHandle s.nextId buildErr connectErr
    ({ s with nextId := s.nextId + 1, factoryCount := s.factoryCount + 1 }, .inserting cli)
  | .inserting cli =>
    ({ s with connections := insertConn s.connections key cli }, .done cli)
  | .done cli => (s, .done cli)

/-- Run two threads through `Cluster.Bucket` under an explicit schedule:
`true` steps the first thread, `false` the second. -/
def runRace (key : clientStateBlock) (buildErr connectErr : Option GoError) :
    List Bool → RaceState × ThreadPhase × ThreadPhase → RaceState × ThreadPhase × ThreadPhase
  | [], st => st
  | tid :: rest, (s, p1, p2) =>
    if tid then
      let r := threadStep key buildErr connectErr s p1
      runRace key buildErr connectErr rest (r.1, r.2, p2)
    else
      let r := threadStep key buildErr connectErr s p2
      runRace key buildErr connectErr rest (r.1, p1, r.2)

/-- Whether an `Except` result is a success. -/
def isOkE {A : Type} : Except GoError A → Bool
  | .ok _ => true
  | .error _ => false

/-- The value a recognized connection-string timeout key resolves to: the
default when the key is absent, else the parsed last value in
milliseconds (used only to state theorems about
`parseExtraConnStrOptions`). -/
def overrideField (spec : ConnSpec) (name : String) (dflt : Duration) : Duration :=
  match fetchOption spec name with
  | none => dflt
  | some s =>
    match parseInt64 s with
    | some v => int64Wrap (v * timeMillisecond)
    | none => dflt

/-- The config block of a cluster built from all-default options. -/
def sbDefault : stateBlock := (clusterFromOptions {}).sb

/-- A connection string carrying two values for `query_timeout`. -/
def specW : ConnSpec :=
  { Scheme := "couchbase", Options := [("query_timeout", ["9999", "5000"])] }

/-- A connection string whose `query_timeout` value is not numeric. -/
def specBadOpt : ConnSpec :=
  { Scheme := "couchbase", Options := [("query_timeout", ["abc"])] }

/-- A connection string overriding `query_timeout` to zero. -/
def specZeroTimeout : ConnSpec :=
  { Scheme := "couchbase", Options := [("query_timeout", ["0"])] }

/-- A connected cluster-level handle whose `supportsGCCCP()` is false. -/
def noGcccpCli : client :=
  { id := 7, bootstrapErr := none, connectedOk := true, connectedErr := none,
    supportsGCCCP := false, closeErr := none }

/-- A cluster with an empty registry whose cluster-level slot holds a
handle without GCCCP support. -/
def noGcccpCluster : Cluster :=
  { clusterFromOptions {} with clusterClient := some noGcccpCli }

/-- A registry entry handle with a chosen close outcome. -/
def closeProbeCli (n : Nat) (e : Option GoError) : client :=
  { id := n, bootstrapErr := none, connectedOk := true, connectedErr := none,
    supportsGCCCP := false, closeErr := e }

/-- A cluster with three registry entries whose first and third fail to
close, with distinct errors. -/
def closeProbeCluster : Cluster :=
  { clusterFromOptions {} with
      connections :=
        [(mkCSB sbDefault "b1", closeProbeCli 1 (some ⟨"close failure 1"⟩)),
         (mkCSB sbDefault "b2", closeProbeCli 2 none),
         (mkCSB sbDefault "b3", closeProbeCli 3 (some ⟨"close failure 3"⟩))] }

/-- The fingerprint two racing bucket acquisitions contend on. -/
def raceKey : clientStateBlock := mkCSB sbDefault "sales"

/-- Both racing threads start before their cache lookup, over an empty
registry. -/
def raceInit : RaceState × ThreadPhase × ThreadPhase :=
  ({ connections := [], nextId := 0, factoryCount := 0 }, .start, .start)

/-- The schedule that interleaves both threads' cache misses before
either runs the factory. -/
def raceSchedule : List Bool := [true, false, true, false, true, false]

/-- A cluster whose cluster-level slot is occupied, for exercising
`WaitUntilReady`. -/
def readyProbeCluster : Cluster :=
  { clusterFromOptions {} with clusterClient := some (mkHandle 0 none none) }

/-- A wait-until-ready provider that reaches the online state after 10
nanoseconds. -/
def probeProvider : wurProvider := { reachTimes := [(ClusterStateOnline, 10)] }

/-- First acquisition of bucket `sales` on a fresh default cluster. -/
def c6r1 : Cluster × client := (clusterFromOptions {}).BucketOp "sales" none none

/-- Second acquisition of `sales` with unchanged configuration. -/
def c6r2 : Cluster × client := c6r1.1.BucketOp "sales" none none

/-- The cluster after the second acquisition, with KvTimeout changed. -/
def c6c2 : Cluster := { c6r2.1 with sb := { c6r2.1.sb with KvTimeout := 1 } }

/-- Third acquisition of `sales` under the changed KvTimeout. -/
def c6r3 : Cluster × client := c6c2.BucketOp "sales" none none

theorem scanClients_fst (conns : List client) (acc : Option GoError) :
    (scanClients conns acc).1 = conns.find? isConnectedOK := by
  induction conns generalizing acc with
  | nil => simp [scanClients]
  | cons cl rest ih =>
    cases hb : cl.bootstrapErr with
    | some e =>
      have hok : isConnectedOK cl = false := by simp [isConnectedOK, hb]
      simp [scanClients, hb, List.find?_cons, hok, ih]
    | none =>
      cases hc : cl.connectedErr with
      | some e =>
        have hok : isConnectedOK cl = false := by simp [isConnectedOK, hb, hc]
        simp [scanClients, hb, hc, List.find?_cons, hok, ih]
      | none =>
        cases hk : cl.connectedOk with
        | true =>
          have hok : isConnectedOK cl = true := by simp [isConnectedOK, hb, hc, hk]
          simp [scanClients, hb, hc, hk, List.find?_cons, hok]
        | false =>
          have hok : isConnectedOK cl = false := by simp [isConnectedOK, hb, hc, hk]
          simp [scanClients, hb, hc, hk, List.find?_cons, hok, ih]

theorem scanClients_snd (conns : List client) (acc : Option GoError)
    (h : conns.find? isConnectedOK = none) :
    (scanClients conns acc).2 =
      match acc with
      | some e => some e
      | none => (conns.filterMap recordedErr).head? := by
  induction conns generalizing acc with
  | nil => cases acc <;> simp [scanClients]
  | cons cl rest ih =>
    have hok : isConnectedOK cl = false := by
      by_contra hcon
      rw [List.find?_cons_of_pos _ (by simpa using hcon)] at h
      exact Option.noConfusion h
    have hrest : rest.find? isConnectedOK = none := by
      rwa [List.find?_cons_of_neg _ (by simp [hok])] at h
    cases hb : cl.bootstrapErr with
    | some e =>
      have hrec : recordedErr cl = some e := by simp [recordedErr, hb]
      cases acc with
      | none =>
        have := ih (some e) hrest
        simp [scanClients, hb, List.filterMap_cons, hrec, this]
      | some a =>
        have := ih (some a) hrest
        simp [scanClients, hb, this]
    | none =>
      cases hc : cl.connectedErr with
      | some e =>
        have hrec : recordedErr cl = some e := by simp [recordedErr, hb, hc]
        cases acc with
        | none =>
          have := ih (some e) hrest
          simp [scanClients, hb, hc, List.filterMap_cons, hrec, this]
        | some a =>
          have := ih (some a) hrest
          simp [scanClients, hb, hc, this]
      | none =>
        have hk : cl.connectedOk = false := by
          by_contra hcon
          simp [isConnectedOK, hb, hc, eq_true_of_ne_false hcon] at hok
        have hrec : recordedErr cl = none := by simp [recordedErr, hb, hc]
        have := ih acc hrest
        simp [scanClients, hb, hc, hk, List.filterMap_cons, hrec, this]

/-- C3: the fallback scan of `randomClient` selects exactly the first
handle that is connected with no bootstrap or connectivity error; when no
such handle exists it fails with the first recorded error, and with the
`not connected to cluster` error when no error was recorded (in
particular on an empty registry). -/
theorem randomClient_resolution (conns : List client) :
    randomClient conns =
      match conns.find? isConnectedOK with
      | some cl => .ok cl
      | none => .error (((conns.filterMap recordedErr).head?).getD notConnectedErr) := by
  unfold randomClient
  cases conns with
  | nil => simp
  | cons a l =>
    rw [if_neg (by simp)]
    rcases hscan : scanClients (a :: l) none with ⟨sel, ferr⟩
    have h1 := scanClients_fst (a :: l) none
    rw [hscan] at h1
    dsimp at h1
    cases hf : (a :: l).find? isConnectedOK with
    | some cl =>
      rw [hf] at h1
      subst h1
      simp
    | none =>
      rw [hf] at h1
      subst h1
      have h2 := scanClients_snd (a :: l) none hf
      rw [hscan] at h2
      dsimp at h2
      cases hh : ((a :: l).filterMap recordedErr).head? with
      | some e => rw [hh] at h2; subst h2; simp
      | none => rw [hh] at h2; subst h2; simp

theorem lookupConn_insertConn_self (l : List (clientStateBlock × client))
    (key : clientStateBlock) (v : client) :
    lookupConn (insertConn l key v) key = some v := by
  induction l with
  | nil => simp [insertConn, lookupConn]
  | cons hd tl ih =>
    obtain ⟨k, w⟩ := hd
    by_cases hk : k = key
    · simp [insertConn, lookupConn, hk]
    · simp [insertConn, lookupConn, hk, ih]

theorem retireClusterClient_sb (c : Cluster) : (retireClusterClient c).sb = c.sb := by
  unfold retireClusterClient
  cases c.clusterClient with
  | none => rfl
  | some cc => by_cases h : cc.supportsGCCCP <;> simp [h]

theorem retireClusterClient_connections (c : Cluster) :
    (retireClusterClient c).connections = c.connections := by
  unfold retireClusterClient
  cases c.clusterClient with
  | none => rfl
  | some cc => by_cases h : cc.supportsGCCCP <;> simp [h]

theorem retireClusterClient_nextId (c : Cluster) : (retireClusterClient c).nextId = c.nextId := by
  unfold retireClusterClient
  cases c.clusterClient with
  | none => rfl
  | some cc => by_cases h : cc.supportsGCCCP <;> simp [h]

theorem retireClusterClient_factoryCount (c : Cluster) :
    (retireClusterClient c).factoryCount = c.factoryCount := by
  unfold retireClusterClient
  cases c.clusterClient with
  | none => rfl
  | some cc => by_cases h : cc.supportsGCCCP <;> simp [h]

theorem retireClusterClient_retired (c : Cluster) (cc : client)
    (h : (retireClusterClient c).clusterClient = some cc) : cc.supportsGCCCP = true := by
  unfold retireClusterClient at h
  cases hc : c.clusterClient with
  | none =>
    rw [hc] at h
    dsimp at h
    rw [hc] at h
    exact Option.noConfusion h
  | some cc2 =>
    rw [hc] at h
    by_cases hg : cc2.supportsGCCCP
    · simp [hg] at h
      rw [hc] at h
      injection h with h2
      rw [← h2]
      exact hg
    · simp [hg] at h

theorem retireClusterClient_noop (c : Cluster)
    (h : ∀ cc, c.clusterClient = some cc → cc.supportsGCCCP = true) :
    retireClusterClient c = c := by
  unfold retireClusterClient
  cases hc : c.clusterClient with
  | none => rfl
  | some cc => simp [h cc hc]

theorem BucketOp_eq (c : Cluster) (name : String) (b e : Option GoError) :
    c.BucketOp name b e =
      match lookupConn (retireClusterClient c).connections
          (mkCSB (retireClusterClient c).sb name) with
      | some cli => (retireClusterClient c, cli)
      | none =>
        ({ retireClusterClient c with
             connections := insertConn (retireClusterClient c).connections
               (mkCSB (retireClusterClient c).sb name)
               (mkHandle (retireClusterClient c).nextId b e)
             nextId := (retireClusterClient c).nextId + 1
             factoryCount := (retireClusterClient c).factoryCount + 1 },
         mkHandle (retireClusterClient c).nextId b e) := rfl

theorem BucketOp_repeat (c : Cluster) (name : String) (b1 e1 b2 e2 : Option GoError) :
    (c.BucketOp name b1 e1).1.BucketOp name b2 e2 =
      ((c.BucketOp name b1 e1).1, (c.BucketOp name b1 e1).2) := by
  have hret : retireClusterClient (retireClusterClient c) = retireClusterClient c :=
    retireClusterClient_noop _ (fun cc h => retireClusterClient_retired c cc h)
  rw [BucketOp_eq c]
  cases hl : lookupConn (retireClusterClient c).connections
      (mkCSB (retireClusterClient c).sb name) with
  | some cli =>
    simp only
    rw [BucketOp_eq, hret, hl]
  | none =>
    simp only
    rw [BucketOp_eq]
    have hnoop : retireClusterClient
        ({ retireClusterClient c with
             connections := insertConn (retireClusterClient c).connections
               (mkCSB (retireClusterClient c).sb name)
               (mkHandle (retireClusterClient c).nextId b1 e1)
             nextId := (retireClusterClient c).nextId + 1
             factoryCount := (retireClusterClient c).factoryCount + 1 }) =
        { retireClusterClient c with
             connections := insertConn (retireClusterClient c).connections
               (mkCSB (retireClusterClient c).sb name)
               (mkHandle (retireClusterClient c).nextId b1 e1)
             nextId := (retireClusterClient c).nextId + 1
             factoryCount := (retireClusterClient c).factoryCount + 1 } :=
      retireClusterClient_noop _ (fun cc h => retireClusterClient_retired c cc h)
    rw [hnoop]
    dsimp only
    rw [lookupConn_insertConn_self]

/-- C4 counterexample: two callers racing through `Cluster.Bucket` for the
same fingerprint over an empty registry, scheduled so that both cache
lookups run before either factory call, invoke the build-and-connect
factory twice — refuting "the factory is invoked at most once per
distinct fingerprint even when N threads race".  The second insert
overwrites the first handle, and the two callers end up holding distinct
transport sessions. -/
theorem bucket_factory_race_counterexample :
    (runRace raceKey none none raceSchedule raceInit).1.factoryCount = 2 ∧
    (runRace raceKey none none raceSchedule raceInit).2.1 = .done (mkHandle 0 none none) ∧
    (runRace raceKey none none raceSchedule raceInit).2.2 = .done (mkHandle 1 none none) ∧
    (runRace raceKey none none raceSchedule raceInit).1.connections =
      [(raceKey, mkHandle 1 none none)] ∧
    mkHandle 0 none none ≠ mkHandle 1 none none := by
  refine ⟨rfl, rfl, rfl, rfl, by decide⟩

/-- C4 (amended): the factory is invoked at most once per distinct
fingerprint across sequential acquisitions — a second `Bucket` call with
the same name and unchanged configuration performs no factory invocation
and returns the handle cached by the first call.  Under concurrent racing
callers, however, the cache lookup and the creation are not covered by
one exclusive lock section (the source connects outside the lock), so
racing callers may each invoke the factory for the same fingerprint, the
later insert overwriting the earlier handle. -/
theorem bucket_factory_sequential_once (c : Cluster) (name : String)
    (b1 e1 b2 e2 : Option GoError) :
    ((c.BucketOp name b1 e1).1.BucketOp name b2 e2).1.factoryCount =
        (c.BucketOp name b1 e1).1.factoryCount ∧
    ((c.BucketOp name b1 e1).1.BucketOp name b2 e2).2 = (c.BucketOp name b1 e1).2 := by
  rw [BucketOp_repeat]
  exact ⟨rfl, rfl⟩

/-- C5: `Cluster.Bucket` on a cache miss always returns a handle, with a
config-build or connect failure recorded as the handle's bootstrap error;
the failed handle is still cached under the bucket's fingerprint, the
factory ran exactly once, and a subsequent acquisition with the same
fingerprint returns that same handle (with the same recorded bootstrap
error) without retrying. -/
theorem bucket_caches_failed_handle (c : Cluster) (name : String)
    (bErr cErr bErr2 cErr2 : Option GoError)
    (hmiss : lookupConn c.connections (mkCSB c.sb name) = none) :
    (c.BucketOp name bErr cErr).2.bootstrapErr =
        (match bErr with
         | some e => some e
         | none => cErr) ∧
    lookupConn (c.BucketOp name bErr cErr).1.connections (mkCSB c.sb name) =
        some (c.BucketOp name bErr cErr).2 ∧
    (c.BucketOp name bErr cErr).1.factoryCount = c.factoryCount + 1 ∧
    (c.BucketOp name bErr cErr).1.BucketOp name bErr2 cErr2 =
        ((c.BucketOp name bErr cErr).1, (c.BucketOp name bErr cErr).2) := by
  have hmiss2 : lookupConn (retireClusterClient c).connections
      (mkCSB (retireClusterClient c).sb name) = none := by
    rw [retireClusterClient_connections, retireClusterClient_sb]
    exact hmiss
  refine ⟨?_, ?_, ?_, BucketOp_repeat c name bErr cErr bErr2 cErr2⟩
  · rw [BucketOp_eq, hmiss2]
    rfl
  · rw [BucketOp_eq, hmiss2]
    dsimp only
    rw [← retireClusterClient_sb c]
    exact lookupConn_insertConn_self _ _ _
  · rw [BucketOp_eq, hmiss2]
    dsimp only
    rw [retireClusterClient_factoryCount]

/-- C5 witness: on a fresh default cluster, acquiring bucket `sales` with
a failing config build returns a handle carrying that bootstrap error and
caches it, with one factory invocation. -/
theorem bucket_caches_failed_handle_witness :
    lookupConn (clusterFromOptions {}).connections (mkCSB (clusterFromOptions {}).sb "sales") =
        none ∧
    ((clusterFromOptions {}).BucketOp "sales" (some ⟨"config build failed"⟩) none).2.bootstrapErr =
        some ⟨"config build failed"⟩ ∧
    ((clusterFromOptions {}).BucketOp "sales" (some ⟨"config build failed"⟩) none).1.factoryCount =
        1 := by
  have h := bucket_caches_failed_handle (clusterFromOptions {}) "sales"
    (some ⟨"config build failed"⟩) none none none rfl
  exact ⟨rfl, h.1, h.2.2.1⟩

/-- C6: two sequential `Bucket` acquisitions with identical resolved
configuration return the same cached handle with exactly one transport
session created for the fingerprint; a further acquisition under a
configuration differing in KvTimeout yields a distinct handle. -/
theorem bucket_fingerprint_identity (opts : ClusterOptions) (name : String)
    (b1 e1 b2 e2 b3 e3 : Option GoError) (kv : Duration)
    (hkv : kv ≠ (clusterFromOptions opts).sb.KvTimeout) :
    let c0 := clusterFromOptions opts
    let r1 := c0.BucketOp name b1 e1
    let r2 := r1.1.BucketOp name b2 e2
    let c2 := { r2.1 with sb := { r2.1.sb with KvTimeout := kv } }
    let r3 := c2.BucketOp name b3 e3
    r2.2 = r1.2 ∧ r2.1.factoryCount = 1 ∧ r3.2.id ≠ r1.2.id ∧ r3.2 ≠ r1.2 := by
  intro c0 r1 r2 c2 r3
  have hr2 : r2 = (r1.1, r1.2) := BucketOp_repeat c0 name b1 e1 b2 e2
  have hc2 : c2 = { r1.1 with sb := { r1.1.sb with KvTimeout := kv } } := by
    show { r2.1 with sb := { r2.1.sb with KvTimeout := kv } } = _
    rw [hr2]
  have hretc2 : retireClusterClient c2 = c2 := by
    rw [hc2]
    exact retireClusterClient_noop _ (fun cc h => Option.noConfusion h)
  have hlook : lookupConn (retireClusterClient c2).connections
      (mkCSB (retireClusterClient c2).sb name) = none := by
    rw [hretc2, hc2]
    show lookupConn [(mkCSB c0.sb name, mkHandle 0 b1 e1)]
      (mkCSB { c0.sb with KvTimeout := kv } name) = none
    simp only [lookupConn]
    rw [if_neg]
    intro heq
    have hkv2 : c0.sb.KvTimeout = kv := congrArg clientStateBlock.KvTimeout heq
    exact hkv hkv2.symm
  have h3 := BucketOp_eq c2 name b3 e3
  rw [hlook] at h3
  have hid : r3.2.id ≠ r1.2.id := by
    show (c2.BucketOp name b3 e3).2.id ≠ r1.2.id
    rw [h3, hretc2, hc2]
    exact Nat.one_ne_zero
  refine ⟨?_, ?_, hid, fun heq => hid (congrArg client.id heq)⟩
  · show r2.2 = r1.2
    rw [hr2]
  · show r2.1.factoryCount = 1
    rw [hr2]
    rfl

/-- C6 witness: the scenario at concrete inputs — bucket `sales` on a
fresh default cluster, then a repeat acquisition, then one under a
KvTimeout of 1ns. -/
theorem bucket_fingerprint_identity_witness :
    (1 : Duration) ≠ (clusterFromOptions {}).sb.KvTimeout ∧
    c6r2.2 = c6r1.2 ∧ c6r2.1.factoryCount = 1 ∧ c6r3.2.id ≠ c6r1.2.id ∧ c6r3.2 ≠ c6r1.2 := by
  have h := bucket_fingerprint_identity {} "sales" none none none none none none 1 (by decide)
  obtain ⟨h1, h2, h3, h4⟩ := h
  exact ⟨by decide, h1, h2, h3, h4⟩

/-- C1 counterexample: with an empty registry and a cluster-level handle
whose `supportsGCCCP()` is false, resolving the query capability fails
with the cluster-level-queries-unsupported error — it does not fall
through to the registry fallback, so the NotConnectedError the claim
predicts is not produced. -/
theorem resolve_gcccp_claim_counterexample :
    noGcccpCluster.connections = [] ∧
    noGcccpCluster.clusterClient = some noGcccpCli ∧
    noGcccpCli.supportsGCCCP = false ∧
    getCapabilityProvider noGcccpCluster .query (fun cl _ => .ok cl.id) =
      .error gcccpUnsupportedErr ∧
    gcccpUnsupportedErr ≠ notConnectedErr := by
  refine ⟨rfl, rfl, rfl, rfl, by decide⟩

/-- C1 (amended): whenever the Cluster-Level Slot holds a handle whose
`supportsGCCCP()` is false, resolving any capability does not use that
handle's providers and does not fall through to the registry fallback:
it fails immediately with the cluster-level-queries-unsupported error,
whatever the registry holds and whatever providers any handle exposes. -/
theorem resolve_non_gcccp_fails_without_fallback (c : Cluster) (cli : client)
    (cap : Capability) (provOf : client → Capability → Except GoError Nat)
    (h1 : c.clusterClient = some cli) (h2 : cli.supportsGCCCP = false) :
    getCapabilityProvider c cap provOf = .error gcccpUnsupportedErr := by
  simp [getCapabilityProvider, clusterOrRandomClient, h1, h2]

/-- C1 witness: the amended theorem at the concrete empty-registry
cluster, for the analytics capability and a provider table that would
succeed if it were ever consulted. -/
theorem resolve_non_gcccp_fails_without_fallback_witness :
    getCapabilityProvider noGcccpCluster .analytics (fun _ _ => .ok 0) =
      .error gcccpUnsupportedErr :=
  resolve_non_gcccp_fails_without_fallback noGcccpCluster noGcccpCli .analytics
    (fun _ _ => .ok 0) rfl rfl

theorem closeConnsLoop_spec (l : List (clientStateBlock × client))
    (acc : Option GoError) (ids : List Nat) :
    closeConnsLoop l acc ids =
      ((acc.toList ++ l.filterMap (fun p => p.2.closeErr)).getLast?,
       ids ++ l.map (fun p => p.2.id)) := by
  induction l generalizing acc ids with
  | nil =>
    cases acc with
    | none => simp [closeConnsLoop]
    | some a => simp [closeConnsLoop]
  | cons hd tl ih =>
    obtain ⟨k, cl⟩ := hd
    cases hce : cl.closeErr with
    | some e =>
      rw [closeConnsLoop, hce, ih]
      refine Prod.ext ?_ (by simp)
      show ((some e).toList ++ tl.filterMap fun p => p.2.closeErr).getLast? =
        (acc.toList ++ ((k, cl) :: tl).filterMap fun p => p.2.closeErr).getLast?
      rw [List.filterMap_cons, hce]
      cases hE : (tl.filterMap fun p => p.2.closeErr).getLast? with
      | some x =>
        simp only [List.getLast?_append, List.getLast?_cons, hE, Option.toList_some,
          Option.getD_some, Option.or_some]
      | none =>
        simp only [List.getLast?_append, List.getLast?_cons, hE, Option.toList_some,
          Option.getD_none, Option.none_or]
        simp
    | none =>
      rw [closeConnsLoop, hce, ih]
      refine Prod.ext ?_ (by simp)
      show (acc.toList ++ tl.filterMap fun p => p.2.closeErr).getLast? =
        (acc.toList ++ ((k, cl) :: tl).filterMap fun p => p.2.closeErr).getLast?
      rw [List.filterMap_cons]
      rw [hce]

/-- C2 counterexample: closing a cluster whose registry holds three
entries with the first and third failing to close returns the error of
entry 3 — the last encountered — while the first encountered close error
is that of entry 1; the claim that the first error is returned fails.
All three closes are still attempted, the registry is emptied, and the
tracer is released once. -/
theorem close_first_error_counterexample :
    (closeCluster closeProbeCluster).overallErr = some ⟨"close failure 3"⟩ ∧
    (closeCluster closeProbeCluster).closedIds = [1, 2, 3] ∧
    (closeCluster closeProbeCluster).state.connections = [] ∧
    (closeCluster closeProbeCluster).tracerDecs = 1 ∧
    (closeProbeCluster.connections.filterMap (fun p => p.2.closeErr)).head? =
      some ⟨"close failure 1"⟩ ∧
    (⟨"close failure 3"⟩ : GoError) ≠ ⟨"close failure 1"⟩ := by
  refine ⟨rfl, rfl, rfl, rfl, rfl, by decide⟩

/-- C2 (amended): `Close` attempts to close every registry entry and the
cluster-level handle even when individual closes fail, empties the
registry, decrements and releases the shared tracer exactly once
(whenever one is present, as always holds for a constructed cluster)
regardless of close failures — but the error it returns is the last
close error encountered; earlier errors are logged, not returned. -/
theorem close_cluster_behavior (c : Cluster) :
    (closeCluster c).closedIds =
        c.connections.map (fun p => p.2.id) ++
          (match c.clusterClient with
           | some cc => [cc.id]
           | none => []) ∧
    (closeCluster c).state.connections = [] ∧
    (closeCluster c).overallErr =
        (c.connections.filterMap (fun p => p.2.closeErr) ++
          (match c.clusterClient with
           | some cc => cc.closeErr.toList
           | none => [])).getLast? ∧
    (closeCluster c).tracerDecs = (if c.sb.Tracer.isSome then 1 else 0) ∧
    (closeCluster c).state.sb.Tracer = none := by
  unfold closeCluster
  rw [closeConnsLoop_spec]
  cases hcc : c.clusterClient with
  | none =>
    cases ht : c.sb.Tracer with
    | none =>
      refine ⟨by simp, rfl, by simp, by simp, ?_⟩
      show c.sb.Tracer = none
      exact ht
    | some t => exact ⟨by simp, rfl, by simp, by simp, rfl⟩
  | some cc =>
    cases hce : cc.closeErr with
    | none =>
      cases ht : c.sb.Tracer with
      | none =>
        refine ⟨by simp, rfl, by simp [hce], by simp, ?_⟩
        show c.sb.Tracer = none
        exact ht
      | some t => exact ⟨by simp, rfl, by simp [hce], by simp, rfl⟩
    | some e =>
      cases ht : c.sb.Tracer with
      | none =>
        refine ⟨by simp, rfl, by simp [hce, List.getLast?_append], by simp, ?_⟩
        show c.sb.Tracer = none
        exact ht
      | some t => exact ⟨by simp, rfl, by simp [hce, List.getLast?_append], by simp, rfl⟩

theorem setQueryTimeoutOpt_ok (spec : ConnSpec) (sb sb' : stateBlock)
    (h : setQueryTimeoutOpt spec sb = .ok sb') :
    sb' = { sb with QueryTimeout := overrideField spec "query_timeout" sb.QueryTimeout } := by
  unfold setQueryTimeoutOpt at h
  unfold overrideField
  cases hf : fetchOption spec "query_timeout" with
  | none =>
    simp only [hf] at h ⊢
    injection h with h2
    rw [← h2]
  | some s =>
    simp only [hf] at h ⊢
    cases hp : parseInt64 s with
    | none =>
      simp only [hp] at h
      exact Except.noConfusion h
    | some v =>
      simp only [hp] at h ⊢
      injection h with h2
      rw [← h2]

theorem setAnalyticsTimeoutOpt_ok (spec : ConnSpec) (sb sb' : stateBlock)
    (h : setAnalyticsTimeoutOpt spec sb = .ok sb') :
    sb' = { sb with
      AnalyticsTimeout := overrideField spec "analytics_timeout" sb.AnalyticsTimeout } := by
  unfold setAnalyticsTimeoutOpt at h
  unfold overrideField
  cases hf : fetchOption spec "analytics_timeout" with
  | none =>
    simp only [hf] at h ⊢
    injection h with h2
    rw [← h2]
  | some s =>
    simp only [hf] at h ⊢
    cases hp : parseInt64 s with
    | none =>
      simp only [hp] at h
      exact Except.noConfusion h
    | some v =>
      simp only [hp] at h ⊢
      injection h with h2
      rw [← h2]

theorem setSearchTimeoutOpt_ok (spec : ConnSpec) (sb sb' : stateBlock)
    (h : setSearchTimeoutOpt spec sb = .ok sb') :
    sb' = { sb with
      SearchTimeout := overrideField spec "search_timeout" sb.SearchTimeout } := by
  unfold setSearchTimeoutOpt at h
  unfold overrideField
  cases hf : fetchOption spec "search_timeout" with
  | none =>
    simp only [hf] at h ⊢
    injection h with h2
    rw [← h2]
  | some s =>
    simp only [hf] at h ⊢
    cases hp : parseInt64 s with
    | none =>
      simp only [hp] at h
      exact Except.noConfusion h
    | some v =>
      simp only [hp] at h ⊢
      injection h with h2
      rw [← h2]

theorem setViewTimeoutOpt_ok (spec : ConnSpec) (sb sb' : stateBlock)
    (h : setViewTimeoutOpt spec sb = .ok sb') :
    sb' = { sb with
      ViewTimeout := overrideField spec "view_timeout" sb.ViewTimeout } := by
  unfold setViewTimeoutOpt at h
  unfold overrideField
  cases hf : fetchOption spec "view_timeout" with
  | none =>
    simp only [hf] at h ⊢
    injection h with h2
    rw [← h2]
  | some s =>
    simp only [hf] at h ⊢
    cases hp : parseInt64 s with
    | none =>
      simp only [hp] at h
      exact Except.noConfusion h
    | some v =>
      simp only [hp] at h ⊢
      injection h with h2
      rw [← h2]

theorem setQueryTimeoutOpt_error (spec : ConnSpec) (sb : stateBlock) (s : String)
    (hf : fetchOption spec "query_timeout" = some s) (hp : parseInt64 s = none) :
    setQueryTimeoutOpt spec sb = .error ⟨"query_timeout option must be a number"⟩ := by
  unfold setQueryTimeoutOpt
  simp only [hf, hp]

theorem setAnalyticsTimeoutOpt_error (spec : ConnSpec) (sb : stateBlock) (s : String)
    (hf : fetchOption spec "analytics_timeout" = some s) (hp : parseInt64 s = none) :
    setAnalyticsTimeoutOpt spec sb = .error ⟨"analytics_timeout option must be a number"⟩ := by
  unfold setAnalyticsTimeoutOpt
  simp only [hf, hp]

theorem setSearchTimeoutOpt_error (spec : ConnSpec) (sb : stateBlock) (s : String)
    (hf : fetchOption spec "search_timeout" = some s) (hp : parseInt64 s = none) :
    setSearchTimeoutOpt spec sb = .error ⟨"search_timeout option must be a number"⟩ := by
  unfold setSearchTimeoutOpt
  simp only [hf, hp]

theorem setViewTimeoutOpt_error (spec : ConnSpec) (sb : stateBlock) (s : String)
    (hf : fetchOption spec "view_timeout" = some s) (hp : parseInt64 s = none) :
    setViewTimeoutOpt spec sb = .error ⟨"view_timeout option must be a number"⟩ := by
  unfold setViewTimeoutOpt
  simp only [hf, hp]

theorem parseExtra_error_of_bad_option (spec : ConnSpec) (sb : stateBlock) (name : String)
    (hmem : name = "query_timeout" ∨ name = "analytics_timeout" ∨
      name = "search_timeout" ∨ name = "view_timeout")
    (s : String) (hf : fetchOption spec name = some s) (hp : parseInt64 s = none) :
    isOkE (parseExtraConnStrOptions sb spec) = false := by
  rcases hmem with rfl | rfl | rfl | rfl
  · unfold parseExtraConnStrOptions
    rw [setQueryTimeoutOpt_error spec sb s hf hp]
    rfl
  · unfold parseExtraConnStrOptions
    cases h1 : setQueryTimeoutOpt spec sb with
    | error e => simp [isOkE]
    | ok sb1 =>
      simp only
      unfold parseExtraFromAnalytics
      rw [setAnalyticsTimeoutOpt_error spec sb1 s hf hp]
      rfl
  · unfold parseExtraConnStrOptions
    cases h1 : setQueryTimeoutOpt spec sb with
    | error e => simp [isOkE]
    | ok sb1 =>
      simp only
      unfold parseExtraFromAnalytics
      cases h2 : setAnalyticsTimeoutOpt spec sb1 with
      | error e => simp [isOkE]
      | ok sb2 =>
        simp only
        unfold parseExtraFromSearch
        rw [setSearchTimeoutOpt_error spec sb2 s hf hp]
        rfl
  · unfold parseExtraConnStrOptions
    cases h1 : setQueryTimeoutOpt spec sb with
    | error e => simp [isOkE]
    | ok sb1 =>
      simp only
      unfold parseExtraFromAnalytics
      cases h2 : setAnalyticsTimeoutOpt spec sb1 with
      | error e => simp [isOkE]
      | ok sb2 =>
        simp only
        unfold parseExtraFromSearch
        cases h3 : setSearchTimeoutOpt spec sb2 with
        | error e => simp [isOkE]
        | ok sb3 =>
          simp only
          rw [setViewTimeoutOpt_error spec sb3 s hf hp]
          rfl

theorem parseExtra_ok_fields (spec : ConnSpec) (sb sb' : stateBlock)
    (h : parseExtraConnStrOptions sb spec = .ok sb') :
    sb'.QueryTimeout = overrideField spec "query_timeout" sb.QueryTimeout ∧
    sb'.AnalyticsTimeout = overrideField spec "analytics_timeout" sb.AnalyticsTimeout ∧
    sb'.SearchTimeout = overrideField spec "search_timeout" sb.SearchTimeout ∧
    sb'.ViewTimeout = overrideField spec "view_timeout" sb.ViewTimeout := by
  unfold parseExtraConnStrOptions at h
  cases h1 : setQueryTimeoutOpt spec sb with
  | error e => rw [h1] at h; exact Except.noConfusion h
  | ok sb1 =>
    simp only [h1] at h
    unfold parseExtraFromAnalytics at h
    cases h2 : setAnalyticsTimeoutOpt spec sb1 with
    | error e => rw [h2] at h; exact Except.noConfusion h
    | ok sb2 =>
      simp only [h2] at h
      unfold parseExtraFromSearch at h
      cases h3 : setSearchTimeoutOpt spec sb2 with
      | error e => rw [h3] at h; exact Except.noConfusion h
      | ok sb3 =>
        simp only [h3] at h
        obtain rfl := setQueryTimeoutOpt_ok spec sb sb1 h1
        obtain rfl := setAnalyticsTimeoutOpt_ok spec _ sb2 h2
        obtain rfl := setSearchTimeoutOpt_ok spec _ sb3 h3
        obtain rfl := setViewTimeoutOpt_ok spec _ sb' h
        exact ⟨rfl, rfl, rfl, rfl⟩

/-- C7: for every connection string, construction reads at most the last
value of each recognized timeout-override key (`query_timeout`,
`analytics_timeout`, `search_timeout`, `view_timeout`), parsing it as
integer milliseconds into the corresponding resolved timeout (via
`overrideField`, which reads the last value through `fetchOption`); a
non-numeric value for any recognized key makes option parsing fail and
makes `Connect` return an error, so no cluster is constructed. -/
theorem connstr_timeout_option_parsing (spec : ConnSpec) (sb : stateBlock) :
    (∀ sb', parseExtraConnStrOptions sb spec = .ok sb' →
        sb'.QueryTimeout = overrideField spec "query_timeout" sb.QueryTimeout ∧
        sb'.AnalyticsTimeout = overrideField spec "analytics_timeout" sb.AnalyticsTimeout ∧
        sb'.SearchTimeout = overrideField spec "search_timeout" sb.SearchTimeout ∧
        sb'.ViewTimeout = overrideField spec "view_timeout" sb.ViewTimeout) ∧
    (∀ name, (name = "query_timeout" ∨ name = "analytics_timeout" ∨
        name = "search_timeout" ∨ name = "view_timeout") →
      ∀ s, fetchOption spec name = some s → parseInt64 s = none →
        isOkE (parseExtraConnStrOptions sb spec) = false ∧
        ∀ opts buildErr connectErr gcccp,
          isOkE (ConnectModel (.ok spec) opts buildErr connectErr gcccp) = false) := by
  constructor
  · intro sb' h
    exact parseExtra_ok_fields spec sb sb' h
  · intro name hmem s hf hp
    refine ⟨parseExtra_error_of_bad_option spec sb name hmem s hf hp, ?_⟩
    intro opts buildErr connectErr gcccp
    cases hres : parseExtraConnStrOptions (clusterFromOptions opts).sb spec with
    | ok sbx =>
      have hbad := parseExtra_error_of_bad_option spec (clusterFromOptions opts).sb
        name hmem s hf hp
      rw [hres] at hbad
      simp [isOkE] at hbad
    | error e =>
      unfold ConnectModel
      by_cases hs : spec.Scheme = "http"
      · simp [hs, isOkE]
      · simp [hs, hres, isOkE]

/-- C7 witness: `query_timeout=5000` (as the last of two supplied values)
resolves QueryTimeout to 5000 milliseconds — five seconds — while
`query_timeout=abc` makes option parsing and `Connect` fail. -/
theorem connstr_timeout_option_parsing_witness :
    (parseExtraConnStrOptions sbDefault specW).map stateBlock.QueryTimeout =
      .ok (5000 * timeMillisecond) ∧
    fetchOption specBadOpt "query_timeout" = some "abc" ∧
    parseInt64 "abc" = none ∧
    isOkE (parseExtraConnStrOptions sbDefault specBadOpt) = false ∧
    isOkE (ConnectModel (.ok specBadOpt) {} none none false) = false := by
  refine ⟨?_, rfl, rfl, ?_, ?_⟩
  · cases hres : parseExtraConnStrOptions sbDefault specW with
    | error e =>
      have hok : isOkE (parseExtraConnStrOptions sbDefault specW) = true := rfl
      rw [hres] at hok
      simp [isOkE] at hok
    | ok sb' =>
      have h := ((connstr_timeout_option_parsing specW sbDefault).1 sb' hres).1
      have hov : overrideField specW "query_timeout" sbDefault.QueryTimeout =
          5000 * timeMillisecond := by decide
      rw [hov] at h
      rw [Except.map, h]
  · exact ((connstr_timeout_option_parsing specBadOpt sbDefault).2 "query_timeout"
      (Or.inl rfl) "abc" rfl rfl).1
  · exact ((connstr_timeout_option_parsing specBadOpt sbDefault).2 "query_timeout"
      (Or.inl rfl) "abc" rfl rfl).2 {} none none false

/-- C8 counterexample: the connection-string override `query_timeout=0`
passes numeric parsing, so construction succeeds and leaves the resolved
QueryTimeout at zero — refuting the invariant that no construction path
(including connection-string overrides) leaves a timeout at zero or
below. -/
theorem timeout_positive_invariant_counterexample :
    (ConnectModel (.ok specZeroTimeout) {} none none true).map (fun cl => cl.sb.QueryTimeout) =
      .ok 0 ∧
    isOkE (ConnectModel (.ok specZeroTimeout) {} none none true) = true ∧
    ¬ (0 : Duration) > 0 := by
  refine ⟨rfl, rfl, by decide⟩

/-- C8 (amended): after `clusterFromOptions` resolves the caller's
options, every timeout in the config block is strictly positive — the
documented default is applied whenever the caller supplies a zero or
missing value.  Connection-string overrides, however, are applied
unvalidated afterwards and can drive a timeout to zero or below. -/
theorem cluster_from_options_timeouts_positive (opts : ClusterOptions) :
    0 < (clusterFromOptions opts).sb.ConnectTimeout ∧
    0 < (clusterFromOptions opts).sb.KvTimeout ∧
    0 < (clusterFromOptions opts).sb.KvDurableTimeout ∧
    0 < (clusterFromOptions opts).sb.ViewTimeout ∧
    0 < (clusterFromOptions opts).sb.QueryTimeout ∧
    0 < (clusterFromOptions opts).sb.AnalyticsTimeout ∧
    0 < (clusterFromOptions opts).sb.SearchTimeout ∧
    0 < (clusterFromOptions opts).sb.ManagementTimeout := by
  unfold clusterFromOptions
  refine ⟨?_, ?_, ?_, ?_, ?_, ?_, ?_, ?_⟩ <;>
    · dsimp only
      split
      · assumption
      · decide

/-- C9: `WaitUntilReady` fails immediately with the
`cluster is not connected` error when no cluster-level client exists;
otherwise it delegates to the transport's wait-until-ready provider with
the effective desired state, succeeding exactly when the desired state is
reached within the timeout and surfacing the timeout error otherwise. -/
theorem wait_until_ready_routing (c : Cluster) (timeout : Duration)
    (opts : Option WaitUntilReadyOptions) (providerRes : Except GoError wurProvider) :
    (c.clusterClient = none →
      WaitUntilReady c timeout opts providerRes = some ⟨"cluster is not connected"⟩) ∧
    (∀ cli p, c.clusterClient = some cli → providerRes = .ok p →
      WaitUntilReady c timeout opts providerRes =
        providerWaitUntilReady p timeout (effectiveDesiredState opts)) := by
  constructor
  · intro h
    unfold WaitUntilReady
    rw [h]
  · intro cli p h1 h2
    unfold WaitUntilReady
    rw [h1, h2]

/-- C9 witness: with an occupied cluster-level slot and a provider that
reaches the online state only after 10ns, waiting with a 5ns timeout
surfaces the timeout error; the not-connected branch is exercised on the
same theorem via a slot-less cluster. -/
theorem wait_until_ready_routing_witness :
    WaitUntilReady readyProbeCluster 5 none (.ok probeProvider) = some timeoutErr ∧
    WaitUntilReady (clusterFromOptions {}) 5 none (.ok probeProvider) =
      some ⟨"cluster is not connected"⟩ := by
  constructor
  · have h := (wait_until_ready_routing readyProbeCluster 5 none (.ok probeProvider)).2
      (mkHandle 0 none none) probeProvider rfl rfl
    rw [h]
    rfl
  · exact (wait_until_ready_routing (clusterFromOptions {}) 5 none (.ok probeProvider)).1 rfl

/-- C10: for every parsed connection string whose scheme is `http`,
`Connect` fails with the dedicated scheme error and returns no cluster;
the error text directs callers to the two accepted schemes, couchbase and
couchbases (schemes other than these reach `Connect` only if the external
connection-string parser accepts them). -/
theorem connect_rejects_http_scheme (spec : ConnSpec) (opts : ClusterOptions)
    (buildErr connectErr : Option GoError) (gcccp : Bool)
    (h : spec.Scheme = "http") :
    ConnectModel (.ok spec) opts buildErr connectErr gcccp =
      .error ⟨"http scheme is not supported, use couchbase or couchbases instead"⟩ := by
  unfold ConnectModel
  dsimp only
  rw [if_pos h]

/-- C10 witness: the theorem at a concrete http connection string. -/
theorem connect_rejects_http_scheme_witness :
    ConnectModel (.ok { Scheme := "http" }) {} none none false =
      .error ⟨"http scheme is not supported, use couchbase or couchbases instead"⟩ :=
  connect_rejects_http_scheme { Scheme := "http" } {} none none false rfl
